import Mathlib

/-!
Verification of the karate tournament entry system (`src/app.py`).

The definitions below are a shallow embedding of the parts of `app.py`
relevant to the headcount validation (`validate_counts`), the entry-form
submit processing inside `school_page` (modelled as `processForm`,
`reconcile` and `submitStep`), and the Excel row layout of
`generate_excel` (modelled as `excelRowOf` / `generateExcelRows`).
Python dicts holding entry records are modelled as functions
`String → Option EntryRecord`; a missing key is `none` and field lookups
on a missing record fall back to `defaultEnt`, mirroring
`entries_data.get(uid, {})` followed by `.get(field)` truthiness tests.
-/

/-- One entry record as produced by the submit processing in
`school_page` (`temp_processed[uid]`, app.py lines 797-802). Field order
matches the dict literal in the source. -/
structure EntryRecord where
  team_kata_chk : Bool
  team_kata_role : String
  team_kumi_chk : Bool
  team_kumi_role : String
  kata_chk : Bool
  kata_val : String
  kata_rank : String
  kumi_chk : Bool
  kumi_val : String
  kumi_rank : String
deriving DecidableEq

/-- The all-absent record: every `.get` on a missing Python dict returns a
falsy value, so a roster member with no entry behaves like this record. -/
def defaultEnt : EntryRecord :=
  ⟨false, "", false, "", false, "", "", false, "", ""⟩

/-- An athlete row of the members master; `validate_counts` only reads
`name` and `sex`. -/
structure Athlete where
  name : String
  sex : String
deriving DecidableEq

/-- The per-tournament entry map (`entries_data`), keyed by
`"{school_id}_{name}"`. -/
def EntryStore : Type := String → Option EntryRecord

/-- `school_meta` as read by `validate_counts` via
`school_meta.get(mode_key, "none")`. -/
structure SchoolMeta where
  m_kumite_mode : Option String
  w_kumite_mode : Option String
deriving DecidableEq

/-- The `limits` configuration dict (min/max bounds per category). -/
structure Limits where
  team_kata_min : Nat
  team_kata_max : Nat
  team_kumite_5_min : Nat
  team_kumite_5_max : Nat
  team_kumite_3_min : Nat
  team_kumite_3_max : Nat
  ind_kata_reg_max : Nat
  ind_kata_sub_max : Nat
  ind_kumi_reg_max : Nat
  ind_kumi_sub_max : Nat
deriving DecidableEq

/-- `DEFAULT_LIMITS` from app.py lines 70-76. -/
def DEFAULT_LIMITS : Limits := ⟨3, 3, 3, 5, 2, 3, 4, 2, 4, 2⟩

/-- The six per-sex counters accumulated by the loop in `validate_counts`
(app.py lines 301-317). -/
structure Counts where
  tk : Nat
  tku : Nat
  k_reg : Nat
  k_sub : Nat
  ku_reg : Nat
  ku_sub : Nat
deriving DecidableEq

def zeroCounts : Counts := ⟨0, 0, 0, 0, 0, 0⟩

/-- Team-kata counting statement (app.py line 307). -/
def stepTk (c : Counts) (ent : EntryRecord) : Counts :=
  if ent.team_kata_chk ∧ ent.team_kata_role = "正" then
    { c with tk := c.tk + 1 } else c

/-- Team-kumite counting statement (app.py line 308). -/
def stepTku (c : Counts) (ent : EntryRecord) : Counts :=
  if ent.team_kumi_chk ∧ ent.team_kumi_role = "正" then
    { c with tku := c.tku + 1 } else c

/-- Individual-kata counting statement (app.py lines 309-312). -/
def stepKata (c : Counts) (ent : EntryRecord) : Counts :=
  if ent.kata_chk then
    (if ent.kata_val = "補" then { c with k_sub := c.k_sub + 1 }
     else if ent.kata_val = "正" then { c with k_reg := c.k_reg + 1 }
     else c)
  else c

/-- Individual-kumite counting statement (app.py lines 313-317). -/
def stepKumi (t_type : String) (c : Counts) (ent : EntryRecord) : Counts :=
  if ent.kumi_chk then
    (if ent.kumi_val = "補" then { c with ku_sub := c.ku_sub + 1 }
     else if ent.kumi_val = "正" then { c with ku_reg := c.ku_reg + 1 }
     else if t_type ≠ "standard" ∧ ent.kumi_val ≠ "" ∧
         ent.kumi_val ≠ "出場しない" ∧ ent.kumi_val ≠ "なし" ∧
         ent.kumi_val ≠ "シード" ∧ ent.kumi_val ≠ "補" then
       { c with ku_reg := c.ku_reg + 1 }
     else c)
  else c

/-- One iteration of the counting loop of `validate_counts`
(app.py lines 304-317) applied to one per-athlete entry record: the four
counting statements run in sequence over the counters. -/
def countEnt (t_type : String) (c : Counts) (ent : EntryRecord) : Counts :=
  stepKumi t_type (stepKata (stepTku (stepTk c ent) ent) ent) ent

/-- Entry lookup of one athlete, defaulting to the empty record: the
key is school id, underscore, athlete name (app.py lines 305-306). -/
def entFor (entries : EntryStore) (school_id name : String) : EntryRecord :=
  (entries (school_id ++ "_" ++ name)).getD defaultEnt

/-- The final counter values for one sex: the loop over the
sex-filtered roster rows in `validate_counts` (app.py lines 300-317). -/
def sexCounts (sex school_id : String) (roster : List Athlete)
    (entries : EntryStore) (t_type : String) : Counts :=
  (roster.filter (fun r => r.sex == sex)).foldl
    (fun c r => countEnt t_type c (entFor entries school_id r.name)) zeroCounts

/-- Numeric tail shared by the three team violation messages. -/
def boundTail (mn mx cnt : Nat) : String :=
  toString mn ++ "～" ++ toString mx ++ "名で登録してください。(現在" ++
    toString cnt ++ "名)"

/-- Team-kata violation message (app.py line 321). -/
def tkMsg (sex : String) (mn mx cnt : Nat) : String :=
  "❌ " ++ (sex ++ ("団体形: 正選手は " ++ boundTail mn mx cnt))

/-- 5-a-side team-kumite violation message (app.py line 329). -/
def tku5Msg (sex : String) (mn mx cnt : Nat) : String :=
  "❌ " ++ (sex ++ ("団体組手(5人制): 正選手は " ++ boundTail mn mx cnt))

/-- 3-a-side team-kumite violation message (app.py line 332). -/
def tku3Msg (sex : String) (mn mx cnt : Nat) : String :=
  "❌ " ++ (sex ++ ("団体組手(3人制): 正選手は " ++ boundTail mn mx cnt))

/-- Individual kata regular over-limit message (app.py line 334). -/
def ikRegMsg (sex : String) (mx : Nat) : String :=
  "❌ " ++ (sex ++ ("個人形(正): 上限 " ++
    (toString mx ++ "名を超えています。(シード除く)")))

/-- Individual kata alternate over-limit message (app.py line 335). -/
def ikSubMsg (sex : String) (mx : Nat) : String :=
  "❌ " ++ (sex ++ ("個人形(補): 上限 " ++ (toString mx ++ "名を超えています。")))

/-- Individual kumite regular over-limit message (app.py line 336). -/
def ikuRegMsg (sex : String) (mx : Nat) : String :=
  "❌ " ++ (sex ++ ("個人組手(正): 上限 " ++
    (toString mx ++ "名を超えています。(シード除く)")))

/-- Individual kumite alternate over-limit message (app.py line 337). -/
def ikuSubMsg (sex : String) (mx : Nat) : String :=
  "❌ " ++ (sex ++ ("個人組手(補): 上限 " ++ (toString mx ++ "名を超えています。")))

/-- Team-kata check (app.py lines 319-321). -/
def tkErrs (sex : String) (l : Limits) (c : Counts) : List String :=
  if 0 < c.tk then
    if l.team_kata_min ≤ c.tk ∧ c.tk ≤ l.team_kata_max then []
    else [tkMsg sex l.team_kata_min l.team_kata_max c.tk]
  else []

/-- The stored per-sex team-kumite mode of the school,
`school_meta.get(mode_key, "none")` (app.py lines 325-326). -/
def schoolMode (sex : String) (meta : SchoolMeta) : String :=
  (if sex = "男子" then meta.m_kumite_mode else meta.w_kumite_mode).getD "none"

/-- The effective team-kumite mode: `mode = "5"` overridden from
`school_meta` for the shinjin type (app.py lines 323-326). -/
def modeOf (sex t_type : String) (meta : SchoolMeta) : String :=
  if t_type = "shinjin" then schoolMode sex meta else "5"

/-- Team-kumite check (app.py lines 322-332). -/
def tkuErrs (sex : String) (l : Limits) (t_type : String) (meta : SchoolMeta)
    (c : Counts) : List String :=
  if 0 < c.tku then
    if modeOf sex t_type meta = "5" then
      if l.team_kumite_5_min ≤ c.tku ∧ c.tku ≤ l.team_kumite_5_max then []
      else [tku5Msg sex l.team_kumite_5_min l.team_kumite_5_max c.tku]
    else if modeOf sex t_type meta = "3" then
      if l.team_kumite_3_min ≤ c.tku ∧ c.tku ≤ l.team_kumite_3_max then []
      else [tku3Msg sex l.team_kumite_3_min l.team_kumite_3_max c.tku]
    else []
  else []

/-- Individual over-limit checks (app.py lines 334-337). -/
def indErrs (sex : String) (l : Limits) (c : Counts) : List String :=
  (if l.ind_kata_reg_max < c.k_reg then [ikRegMsg sex l.ind_kata_reg_max] else []) ++
  (if l.ind_kata_sub_max < c.k_sub then [ikSubMsg sex l.ind_kata_sub_max] else []) ++
  (if l.ind_kumi_reg_max < c.ku_reg then [ikuRegMsg sex l.ind_kumi_reg_max] else []) ++
  (if l.ind_kumi_sub_max < c.ku_sub then [ikuSubMsg sex l.ind_kumi_sub_max] else [])

/-- All violations emitted for one sex, in source order. -/
def sexErrs (sex : String) (l : Limits) (t_type : String) (meta : SchoolMeta)
    (c : Counts) : List String :=
  tkErrs sex l c ++ tkuErrs sex l t_type meta c ++ indErrs sex l c

/-- `validate_counts` (app.py lines 297-338): the loop
`for sex in ["男子", "女子"]` appending violations per sex. -/
def validate_counts (roster : List Athlete) (entries : EntryStore) (l : Limits)
    (t_type : String) (meta : SchoolMeta) (school_id : String) : List String :=
  sexErrs "男子" l t_type meta (sexCounts "男子" school_id roster entries t_type) ++
  sexErrs "女子" l t_type meta (sexCounts "女子" school_id roster entries t_type)

/-! ### String disambiguation helpers

The violation messages are distinguished by their concrete prefixes; the
lemmas below let us conclude that two differently tagged messages are
never equal, whatever the numeric parts are. -/

theorem str_append_left_cancel {a s t : String} (h : a ++ s = a ++ t) : s = t := by
  have hd := congrArg String.data h
  simp only [String.data_append] at hd
  exact String.ext (List.append_cancel_left hd)

theorem append_ne_of_no_pre (a b s t : String) (h1 : ¬ a.data <+: b.data)
    (h2 : ¬ b.data <+: a.data) : ¬ (a ++ s = b ++ t) := by
  intro he
  have hd : a.data ++ s.data = b.data ++ t.data := by
    have := congrArg String.data he
    simpa only [String.data_append] using this
  rcases List.append_eq_append_iff.mp hd with ⟨k, hk1, _⟩ | ⟨k, hk1, _⟩
  · exact h1 ⟨k, hk1.symm⟩
  · exact h2 ⟨k, hk1.symm⟩

theorem msg_ne_of_tag {sex : String} (t1 t2 r1 r2 : String)
    (h1 : ¬ t1.data <+: t2.data) (h2 : ¬ t2.data <+: t1.data) :
    ¬ ("❌ " ++ (sex ++ (t1 ++ r1)) = "❌ " ++ (sex ++ (t2 ++ r2))) := fun he =>
  append_ne_of_no_pre t1 t2 r1 r2 h1 h2
    (str_append_left_cancel (str_append_left_cancel he))

theorem msg_ne_of_sex {s1 s2 x1 x2 : String} (h1 : ¬ s1.data <+: s2.data)
    (h2 : ¬ s2.data <+: s1.data) :
    ¬ ("❌ " ++ (s1 ++ x1) = "❌ " ++ (s2 ++ x2)) := fun he =>
  append_ne_of_no_pre s1 s2 x1 x2 h1 h2 (str_append_left_cancel he)

/-! ### Membership characterisations of the violation slots -/

theorem mem_tkErrs {m sex : String} {l : Limits} {c : Counts}
    (h : m ∈ tkErrs sex l c) :
    m = tkMsg sex l.team_kata_min l.team_kata_max c.tk ∧
      0 < c.tk ∧ ¬ (l.team_kata_min ≤ c.tk ∧ c.tk ≤ l.team_kata_max) := by
  unfold tkErrs at h
  split at h
  · split at h <;> simp_all
  · simp_all

theorem mem_tkuErrs {m sex : String} {l : Limits} {t : String}
    {meta : SchoolMeta} {c : Counts} (h : m ∈ tkuErrs sex l t meta c) :
    (modeOf sex t meta = "5" ∧
      m = tku5Msg sex l.team_kumite_5_min l.team_kumite_5_max c.tku ∧
      0 < c.tku ∧
      ¬ (l.team_kumite_5_min ≤ c.tku ∧ c.tku ≤ l.team_kumite_5_max)) ∨
    (modeOf sex t meta = "3" ∧
      m = tku3Msg sex l.team_kumite_3_min l.team_kumite_3_max c.tku ∧
      0 < c.tku ∧
      ¬ (l.team_kumite_3_min ≤ c.tku ∧ c.tku ≤ l.team_kumite_3_max)) := by
  unfold tkuErrs at h
  by_cases h0 : 0 < c.tku
  · rw [if_pos h0] at h
    by_cases h5 : modeOf sex t meta = "5"
    · rw [if_pos h5] at h
      by_cases hb : l.team_kumite_5_min ≤ c.tku ∧ c.tku ≤ l.team_kumite_5_max
      · simp [hb] at h
      · rw [if_neg hb] at h
        simp only [List.mem_singleton] at h
        exact Or.inl ⟨h5, h, h0, hb⟩
    · rw [if_neg h5] at h
      by_cases h3 : modeOf sex t meta = "3"
      · rw [if_pos h3] at h
        by_cases hb : l.team_kumite_3_min ≤ c.tku ∧ c.tku ≤ l.team_kumite_3_max
        · simp [hb] at h
        · rw [if_neg hb] at h
          simp only [List.mem_singleton] at h
          exact Or.inr ⟨h3, h, h0, hb⟩
      · simp [h3] at h
  · simp [h0] at h

theorem mem_indErrs {m sex : String} {l : Limits} {c : Counts}
    (h : m ∈ indErrs sex l c) :
    m = ikRegMsg sex l.ind_kata_reg_max ∨ m = ikSubMsg sex l.ind_kata_sub_max ∨
    m = ikuRegMsg sex l.ind_kumi_reg_max ∨ m = ikuSubMsg sex l.ind_kumi_sub_max := by
  unfold indErrs at h
  simp only [List.mem_append] at h
  rcases h with ((h | h) | h) | h <;> (split at h <;> simp_all)

theorem sexErrs_shape {m sex : String} {l : Limits} {t : String}
    {meta : SchoolMeta} {c : Counts} (h : m ∈ sexErrs sex l t meta c) :
    ∃ x, m = "❌ " ++ (sex ++ x) := by
  unfold sexErrs at h
  simp only [List.mem_append] at h
  rcases h with (h | h) | h
  · exact ⟨_, (mem_tkErrs h).1⟩
  · rcases mem_tkuErrs h with ⟨_, hm, _⟩ | ⟨_, hm, _⟩ <;> exact ⟨_, hm⟩
  · rcases mem_indErrs h with hm | hm | hm | hm <;> exact ⟨_, hm⟩

theorem male_sexErrs_no_female {x : String} {l : Limits} {t : String}
    {meta : SchoolMeta} {c : Counts} :
    "❌ " ++ ("男子" ++ x) ∉ sexErrs "女子" l t meta c := by
  intro hm
  obtain ⟨y, he⟩ := sexErrs_shape hm
  exact msg_ne_of_sex (by decide) (by decide) he

theorem female_sexErrs_no_male {x : String} {l : Limits} {t : String}
    {meta : SchoolMeta} {c : Counts} :
    "❌ " ++ ("女子" ++ x) ∉ sexErrs "男子" l t meta c := by
  intro hm
  obtain ⟨y, he⟩ := sexErrs_shape hm
  exact msg_ne_of_sex (by decide) (by decide) he

theorem tkMsg_ne_tku5Msg (sex : String) (a b c d e f : Nat) :
    tkMsg sex a b c ≠ tku5Msg sex d e f :=
  msg_ne_of_tag _ _ _ _ (by decide) (by decide)

theorem tkMsg_ne_tku3Msg (sex : String) (a b c d e f : Nat) :
    tkMsg sex a b c ≠ tku3Msg sex d e f :=
  msg_ne_of_tag _ _ _ _ (by decide) (by decide)

theorem tkMsg_ne_ikRegMsg (sex : String) (a b c d : Nat) :
    tkMsg sex a b c ≠ ikRegMsg sex d :=
  msg_ne_of_tag _ _ _ _ (by decide) (by decide)

theorem tkMsg_ne_ikSubMsg (sex : String) (a b c d : Nat) :
    tkMsg sex a b c ≠ ikSubMsg sex d :=
  msg_ne_of_tag _ _ _ _ (by decide) (by decide)

theorem tkMsg_ne_ikuRegMsg (sex : String) (a b c d : Nat) :
    tkMsg sex a b c ≠ ikuRegMsg sex d :=
  msg_ne_of_tag _ _ _ _ (by decide) (by decide)

theorem tkMsg_ne_ikuSubMsg (sex : String) (a b c d : Nat) :
    tkMsg sex a b c ≠ ikuSubMsg sex d :=
  msg_ne_of_tag _ _ _ _ (by decide) (by decide)

theorem tku5Msg_ne_tku3Msg (sex : String) (a b c d e f : Nat) :
    tku5Msg sex a b c ≠ tku3Msg sex d e f :=
  msg_ne_of_tag _ _ _ _ (by decide) (by decide)

theorem tku5Msg_ne_ikRegMsg (sex : String) (a b c d : Nat) :
    tku5Msg sex a b c ≠ ikRegMsg sex d :=
  msg_ne_of_tag _ _ _ _ (by decide) (by decide)

theorem tku5Msg_ne_ikSubMsg (sex : String) (a b c d : Nat) :
    tku5Msg sex a b c ≠ ikSubMsg sex d :=
  msg_ne_of_tag _ _ _ _ (by decide) (by decide)

theorem tku5Msg_ne_ikuRegMsg (sex : String) (a b c d : Nat) :
    tku5Msg sex a b c ≠ ikuRegMsg sex d :=
  msg_ne_of_tag _ _ _ _ (by decide) (by decide)

theorem tku5Msg_ne_ikuSubMsg (sex : String) (a b c d : Nat) :
    tku5Msg sex a b c ≠ ikuSubMsg sex d :=
  msg_ne_of_tag _ _ _ _ (by decide) (by decide)

theorem tku3Msg_ne_ikRegMsg (sex : String) (a b c d : Nat) :
    tku3Msg sex a b c ≠ ikRegMsg sex d :=
  msg_ne_of_tag _ _ _ _ (by decide) (by decide)

theorem tku3Msg_ne_ikSubMsg (sex : String) (a b c d : Nat) :
    tku3Msg sex a b c ≠ ikSubMsg sex d :=
  msg_ne_of_tag _ _ _ _ (by decide) (by decide)

theorem tku3Msg_ne_ikuRegMsg (sex : String) (a b c d : Nat) :
    tku3Msg sex a b c ≠ ikuRegMsg sex d :=
  msg_ne_of_tag _ _ _ _ (by decide) (by decide)

theorem tku3Msg_ne_ikuSubMsg (sex : String) (a b c d : Nat) :
    tku3Msg sex a b c ≠ ikuSubMsg sex d :=
  msg_ne_of_tag _ _ _ _ (by decide) (by decide)

theorem tk_mem_sexErrs_iff (sex : String) (l : Limits) (t : String)
    (meta : SchoolMeta) (c : Counts) :
    tkMsg sex l.team_kata_min l.team_kata_max c.tk ∈ sexErrs sex l t meta c ↔
      (0 < c.tk ∧ ¬ (l.team_kata_min ≤ c.tk ∧ c.tk ≤ l.team_kata_max)) := by
  constructor
  · intro hm
    unfold sexErrs at hm
    rcases List.mem_append.mp hm with hm | hm
    · rcases List.mem_append.mp hm with hm | hm
      · exact (mem_tkErrs hm).2
      · rcases mem_tkuErrs hm with ⟨_, he, _⟩ | ⟨_, he, _⟩
        · exact absurd he (tkMsg_ne_tku5Msg _ _ _ _ _ _ _)
        · exact absurd he (tkMsg_ne_tku3Msg _ _ _ _ _ _ _)
    · rcases mem_indErrs hm with he | he | he | he
      · exact absurd he (tkMsg_ne_ikRegMsg _ _ _ _ _)
      · exact absurd he (tkMsg_ne_ikSubMsg _ _ _ _ _)
      · exact absurd he (tkMsg_ne_ikuRegMsg _ _ _ _ _)
      · exact absurd he (tkMsg_ne_ikuSubMsg _ _ _ _ _)
  · rintro ⟨h0, hb⟩
    unfold sexErrs
    refine List.mem_append.mpr (Or.inl (List.mem_append.mpr (Or.inl ?_)))
    simp [tkErrs, h0, hb]

theorem tku5_mem_sexErrs_iff (sex : String) (l : Limits) (t : String)
    (meta : SchoolMeta) (c : Counts) :
    tku5Msg sex l.team_kumite_5_min l.team_kumite_5_max c.tku ∈
        sexErrs sex l t meta c ↔
      (0 < c.tku ∧ modeOf sex t meta = "5" ∧
        ¬ (l.team_kumite_5_min ≤ c.tku ∧ c.tku ≤ l.team_kumite_5_max)) := by
  constructor
  · intro hm
    unfold sexErrs at hm
    rcases List.mem_append.mp hm with hm | hm
    · rcases List.mem_append.mp hm with hm | hm
      · exact absurd (mem_tkErrs hm).1.symm (tkMsg_ne_tku5Msg _ _ _ _ _ _ _)
      · rcases mem_tkuErrs hm with ⟨h5, _, h0, hb⟩ | ⟨_, he, _⟩
        · exact ⟨h0, h5, hb⟩
        · exact absurd he (tku5Msg_ne_tku3Msg _ _ _ _ _ _ _)
    · rcases mem_indErrs hm with he | he | he | he
      · exact absurd he (tku5Msg_ne_ikRegMsg _ _ _ _ _)
      · exact absurd he (tku5Msg_ne_ikSubMsg _ _ _ _ _)
      · exact absurd he (tku5Msg_ne_ikuRegMsg _ _ _ _ _)
      · exact absurd he (tku5Msg_ne_ikuSubMsg _ _ _ _ _)
  · rintro ⟨h0, h5, hb⟩
    unfold sexErrs
    refine List.mem_append.mpr (Or.inl (List.mem_append.mpr (Or.inr ?_)))
    simp [tkuErrs, h0, h5, hb]

theorem tku3_mem_sexErrs_iff (sex : String) (l : Limits) (t : String)
    (meta : SchoolMeta) (c : Counts) :
    tku3Msg sex l.team_kumite_3_min l.team_kumite_3_max c.tku ∈
        sexErrs sex l t meta c ↔
      (0 < c.tku ∧ modeOf sex t meta = "3" ∧
        ¬ (l.team_kumite_3_min ≤ c.tku ∧ c.tku ≤ l.team_kumite_3_max)) := by
  constructor
  · intro hm
    unfold sexErrs at hm
    rcases List.mem_append.mp hm with hm | hm
    · rcases List.mem_append.mp hm with hm | hm
      · exact absurd (mem_tkErrs hm).1.symm (tkMsg_ne_tku3Msg _ _ _ _ _ _ _)
      · rcases mem_tkuErrs hm with ⟨_, he, _⟩ | ⟨h3, _, h0, hb⟩
        · exact absurd he.symm (tku5Msg_ne_tku3Msg _ _ _ _ _ _ _)
        · exact ⟨h0, h3, hb⟩
    · rcases mem_indErrs hm with he | he | he | he
      · exact absurd he (tku3Msg_ne_ikRegMsg _ _ _ _ _)
      · exact absurd he (tku3Msg_ne_ikSubMsg _ _ _ _ _)
      · exact absurd he (tku3Msg_ne_ikuRegMsg _ _ _ _ _)
      · exact absurd he (tku3Msg_ne_ikuSubMsg _ _ _ _ _)
  · rintro ⟨h0, h3, hb⟩
    unfold sexErrs
    refine List.mem_append.mpr (Or.inl (List.mem_append.mpr (Or.inr ?_)))
    have h5 : modeOf sex t meta ≠ "5" := by rw [h3]; decide
    simp [tkuErrs, h0, h3, h5, hb]

theorem tk_mem_validate_iff (roster : List Athlete) (entries : EntryStore)
    (l : Limits) (t : String) (meta : SchoolMeta) (school_id sex : String)
    (hsex : sex = "男子" ∨ sex = "女子") :
    tkMsg sex l.team_kata_min l.team_kata_max
        (sexCounts sex school_id roster entries t).tk ∈
      validate_counts roster entries l t meta school_id ↔
      (0 < (sexCounts sex school_id roster entries t).tk ∧
        ¬ (l.team_kata_min ≤ (sexCounts sex school_id roster entries t).tk ∧
          (sexCounts sex school_id roster entries t).tk ≤ l.team_kata_max)) := by
  rcases hsex with rfl | rfl
  · unfold validate_counts
    rw [List.mem_append]
    constructor
    · rintro (hm | hm)
      · exact (tk_mem_sexErrs_iff _ _ _ _ _).mp hm
      · exact absurd hm male_sexErrs_no_female
    · intro hc
      exact Or.inl ((tk_mem_sexErrs_iff _ _ _ _ _).mpr hc)
  · unfold validate_counts
    rw [List.mem_append]
    constructor
    · rintro (hm | hm)
      · exact absurd hm female_sexErrs_no_male
      · exact (tk_mem_sexErrs_iff _ _ _ _ _).mp hm
    · intro hc
      exact Or.inr ((tk_mem_sexErrs_iff _ _ _ _ _).mpr hc)

theorem tku5_mem_validate_iff (roster : List Athlete) (entries : EntryStore)
    (l : Limits) (t : String) (meta : SchoolMeta) (school_id sex : String)
    (hsex : sex = "男子" ∨ sex = "女子") :
    tku5Msg sex l.team_kumite_5_min l.team_kumite_5_max
        (sexCounts sex school_id roster entries t).tku ∈
      validate_counts roster entries l t meta school_id ↔
      (0 < (sexCounts sex school_id roster entries t).tku ∧
        modeOf sex t meta = "5" ∧
        ¬ (l.team_kumite_5_min ≤ (sexCounts sex school_id roster entries t).tku ∧
          (sexCounts sex school_id roster entries t).tku ≤ l.team_kumite_5_max)) := by
  rcases hsex with rfl | rfl
  · unfold validate_counts
    rw [List.mem_append]
    constructor
    · rintro (hm | hm)
      · exact (tku5_mem_sexErrs_iff _ _ _ _ _).mp hm
      · exact absurd hm male_sexErrs_no_female
    · intro hc
      exact Or.inl ((tku5_mem_sexErrs_iff _ _ _ _ _).mpr hc)
  · unfold validate_counts
    rw [List.mem_append]
    constructor
    · rintro (hm | hm)
      · exact absurd hm female_sexErrs_no_male
      · exact (tku5_mem_sexErrs_iff _ _ _ _ _).mp hm
    · intro hc
      exact Or.inr ((tku5_mem_sexErrs_iff _ _ _ _ _).mpr hc)

theorem tku3_mem_validate_iff (roster : List Athlete) (entries : EntryStore)
    (l : Limits) (t : String) (meta : SchoolMeta) (school_id sex : String)
    (hsex : sex = "男子" ∨ sex = "女子") :
    tku3Msg sex l.team_kumite_3_min l.team_kumite_3_max
        (sexCounts sex school_id roster entries t).tku ∈
      validate_counts roster entries l t meta school_id ↔
      (0 < (sexCounts sex school_id roster entries t).tku ∧
        modeOf sex t meta = "3" ∧
        ¬ (l.team_kumite_3_min ≤ (sexCounts sex school_id roster entries t).tku ∧
          (sexCounts sex school_id roster entries t).tku ≤ l.team_kumite_3_max)) := by
  rcases hsex with rfl | rfl
  · unfold validate_counts
    rw [List.mem_append]
    constructor
    · rintro (hm | hm)
      · exact (tku3_mem_sexErrs_iff _ _ _ _ _).mp hm
      · exact absurd hm male_sexErrs_no_female
    · intro hc
      exact Or.inl ((tku3_mem_sexErrs_iff _ _ _ _ _).mpr hc)
  · unfold validate_counts
    rw [List.mem_append]
    constructor
    · rintro (hm | hm)
      · exact absurd hm female_sexErrs_no_male
      · exact (tku3_mem_sexErrs_iff _ _ _ _ _).mp hm
    · intro hc
      exact Or.inr ((tku3_mem_sexErrs_iff _ _ _ _ _).mpr hc)

/-! ### Claims C4 and C5 -/

/-- C5: for each sex, `validate_counts` emits the team-kata violation
(message citing the sex, the category 団体形 and the actual count) exactly
when the team-kata regular count is positive and lies outside the
inclusive range given by `limits.team_kata`; a zero count is never
checked. -/
theorem c5_team_kata_violation_iff (roster : List Athlete) (entries : EntryStore)
    (l : Limits) (t_type : String) (meta : SchoolMeta) (school_id sex : String)
    (hsex : sex = "男子" ∨ sex = "女子") :
    tkMsg sex l.team_kata_min l.team_kata_max
        (sexCounts sex school_id roster entries t_type).tk ∈
      validate_counts roster entries l t_type meta school_id ↔
      (0 < (sexCounts sex school_id roster entries t_type).tk ∧
        ¬ (l.team_kata_min ≤ (sexCounts sex school_id roster entries t_type).tk ∧
          (sexCounts sex school_id roster entries t_type).tk ≤ l.team_kata_max)) :=
  tk_mem_validate_iff roster entries l t_type meta school_id sex hsex

/-- Concrete fixtures used by the closed witness statements below. -/
def metaNoneNone : SchoolMeta := ⟨some "none", some "none"⟩

def meta33 : SchoolMeta := ⟨some "3", some "3"⟩

def tkRegEnt : EntryRecord := ⟨true, "正", false, "", false, "", "", false, "", ""⟩

def tkuRegEnt : EntryRecord := ⟨false, "", true, "正", false, "", "", false, "", ""⟩

def rosterM4 : List Athlete :=
  [⟨"a", "男子"⟩, ⟨"b", "男子"⟩, ⟨"c", "男子"⟩, ⟨"d", "男子"⟩]

def entriesTk4 : EntryStore := fun k =>
  if k = "s_a" ∨ k = "s_b" ∨ k = "s_c" ∨ k = "s_d" then some tkRegEnt else none

def entriesTku1 : EntryStore := fun k => if k = "s_a" then some tkuRegEnt else none

/-- Witness for C5: with four male team-kata regulars and the default
3..3 bound, the male team-kata violation message is emitted. -/
theorem c5_team_kata_violation_iff_witness :
    tkMsg "男子" DEFAULT_LIMITS.team_kata_min DEFAULT_LIMITS.team_kata_max
        (sexCounts "男子" "s" rosterM4 entriesTk4 "standard").tk ∈
      validate_counts rosterM4 entriesTk4 DEFAULT_LIMITS "standard" metaNoneNone "s" :=
  (c5_team_kata_violation_iff rosterM4 entriesTk4 DEFAULT_LIMITS "standard"
      metaNoneNone "s" "男子" (Or.inl rfl)).mpr (by decide)

/-- C4: for a sex with positive team-kumite regular count, a non-shinjin
tournament applies the 5-a-side bounds; for shinjin the stored
per-sex mode selects the bounds ("5" uses `team_kumite_5`, "3" uses
`team_kumite_3`) and mode "none" skips the team-kumite check entirely,
emitting neither violation. -/
theorem c4_team_kumite_mode_bounds (roster : List Athlete) (entries : EntryStore)
    (l : Limits) (t_type : String) (meta : SchoolMeta) (school_id sex : String)
    (hsex : sex = "男子" ∨ sex = "女子")
    (hc : 0 < (sexCounts sex school_id roster entries t_type).tku) :
    (t_type ≠ "shinjin" →
      (tku5Msg sex l.team_kumite_5_min l.team_kumite_5_max
          (sexCounts sex school_id roster entries t_type).tku ∈
        validate_counts roster entries l t_type meta school_id ↔
        ¬ (l.team_kumite_5_min ≤ (sexCounts sex school_id roster entries t_type).tku ∧
          (sexCounts sex school_id roster entries t_type).tku ≤ l.team_kumite_5_max))) ∧
    (t_type = "shinjin" → schoolMode sex meta = "5" →
      (tku5Msg sex l.team_kumite_5_min l.team_kumite_5_max
          (sexCounts sex school_id roster entries t_type).tku ∈
        validate_counts roster entries l t_type meta school_id ↔
        ¬ (l.team_kumite_5_min ≤ (sexCounts sex school_id roster entries t_type).tku ∧
          (sexCounts sex school_id roster entries t_type).tku ≤ l.team_kumite_5_max))) ∧
    (t_type = "shinjin" → schoolMode sex meta = "3" →
      (tku3Msg sex l.team_kumite_3_min l.team_kumite_3_max
          (sexCounts sex school_id roster entries t_type).tku ∈
        validate_counts roster entries l t_type meta school_id ↔
        ¬ (l.team_kumite_3_min ≤ (sexCounts sex school_id roster entries t_type).tku ∧
          (sexCounts sex school_id roster entries t_type).tku ≤ l.team_kumite_3_max))) ∧
    (t_type = "shinjin" → schoolMode sex meta = "none" →
      tku5Msg sex l.team_kumite_5_min l.team_kumite_5_max
          (sexCounts sex school_id roster entries t_type).tku ∉
        validate_counts roster entries l t_type meta school_id ∧
      tku3Msg sex l.team_kumite_3_min l.team_kumite_3_max
          (sexCounts sex school_id roster entries t_type).tku ∉
        validate_counts roster entries l t_type meta school_id) := by
  have h5iff := tku5_mem_validate_iff roster entries l t_type meta school_id sex hsex
  have h3iff := tku3_mem_validate_iff roster entries l t_type meta school_id sex hsex
  refine ⟨?_, ?_, ?_, ?_⟩
  · intro ht
    have hm5 : modeOf sex t_type meta = "5" := by simp [modeOf, ht]
    rw [h5iff]
    simp [hc, hm5]
  · intro ht hmode
    have hm5 : modeOf sex t_type meta = "5" := by simp [modeOf, ht, hmode]
    rw [h5iff]
    simp [hc, hm5]
  · intro ht hmode
    have hm3 : modeOf sex t_type meta = "3" := by simp [modeOf, ht, hmode]
    rw [h3iff]
    simp [hc, hm3]
  · intro ht hmode
    constructor
    · intro hm
      have h5 : modeOf sex t_type meta = "5" := (h5iff.mp hm).2.1
      simp [modeOf, ht, hmode] at h5
    · intro hm
      have h3 : modeOf sex t_type meta = "3" := (h3iff.mp hm).2.1
      simp [modeOf, ht, hmode] at h3

/-- Witness for C4: shinjin type, male mode "3", one male team-kumite
regular against the 2..3 bound, so the 3-a-side violation is emitted. -/
theorem c4_team_kumite_mode_bounds_witness :
    tku3Msg "男子" DEFAULT_LIMITS.team_kumite_3_min DEFAULT_LIMITS.team_kumite_3_max
        (sexCounts "男子" "s" rosterM4 entriesTku1 "shinjin").tku ∈
      validate_counts rosterM4 entriesTku1 DEFAULT_LIMITS "shinjin" meta33 "s" :=
  (((c4_team_kumite_mode_bounds rosterM4 entriesTku1 DEFAULT_LIMITS "shinjin"
      meta33 "s" "男子" (Or.inl rfl) (by decide)).2.2.1 rfl (by decide)).mpr (by decide))

/-! ### Claims C1 and C6: counting characterisations -/

theorem stepTk_tk (c : Counts) (e : EntryRecord) :
    (stepTk c e).tk =
      c.tk + (if e.team_kata_chk && (e.team_kata_role == "正") then 1 else 0) := by
  unfold stepTk
  split_ifs <;> simp_all

theorem stepTk_other (c : Counts) (e : EntryRecord) :
    (stepTk c e).tku = c.tku ∧ (stepTk c e).k_reg = c.k_reg ∧
    (stepTk c e).k_sub = c.k_sub ∧ (stepTk c e).ku_reg = c.ku_reg ∧
    (stepTk c e).ku_sub = c.ku_sub := by
  unfold stepTk
  split <;> simp

theorem stepTku_tku (c : Counts) (e : EntryRecord) :
    (stepTku c e).tku =
      c.tku + (if e.team_kumi_chk && (e.team_kumi_role == "正") then 1 else 0) := by
  unfold stepTku
  split_ifs <;> simp_all

theorem stepTku_other (c : Counts) (e : EntryRecord) :
    (stepTku c e).tk = c.tk ∧ (stepTku c e).k_reg = c.k_reg ∧
    (stepTku c e).k_sub = c.k_sub ∧ (stepTku c e).ku_reg = c.ku_reg ∧
    (stepTku c e).ku_sub = c.ku_sub := by
  unfold stepTku
  split <;> simp

theorem stepKata_k_reg (c : Counts) (e : EntryRecord) :
    (stepKata c e).k_reg =
      c.k_reg + (if e.kata_chk && (e.kata_val == "正") then 1 else 0) := by
  unfold stepKata
  split_ifs <;> simp_all

theorem stepKata_k_sub (c : Counts) (e : EntryRecord) :
    (stepKata c e).k_sub =
      c.k_sub + (if e.kata_chk && (e.kata_val == "補") then 1 else 0) := by
  unfold stepKata
  split_ifs <;> simp_all

theorem stepKata_other (c : Counts) (e : EntryRecord) :
    (stepKata c e).tk = c.tk ∧ (stepKata c e).tku = c.tku ∧
    (stepKata c e).ku_reg = c.ku_reg ∧ (stepKata c e).ku_sub = c.ku_sub := by
  unfold stepKata
  split_ifs <;> simp

theorem stepKumi_ku_reg_std (c : Counts) (e : EntryRecord) :
    (stepKumi "standard" c e).ku_reg =
      c.ku_reg + (if e.kumi_chk && (e.kumi_val == "正") then 1 else 0) := by
  unfold stepKumi
  split_ifs <;> simp_all

theorem stepKumi_ku_sub (t : String) (c : Counts) (e : EntryRecord) :
    (stepKumi t c e).ku_sub =
      c.ku_sub + (if e.kumi_chk && (e.kumi_val == "補") then 1 else 0) := by
  unfold stepKumi
  split_ifs <;> simp_all

theorem stepKumi_other (t : String) (c : Counts) (e : EntryRecord) :
    (stepKumi t c e).tk = c.tk ∧ (stepKumi t c e).tku = c.tku ∧
    (stepKumi t c e).k_reg = c.k_reg ∧ (stepKumi t c e).k_sub = c.k_sub := by
  unfold stepKumi
  split_ifs <;> simp

theorem countEnt_k_reg (t : String) (c : Counts) (e : EntryRecord) :
    (countEnt t c e).k_reg =
      c.k_reg + (if e.kata_chk && (e.kata_val == "正") then 1 else 0) := by
  unfold countEnt
  rw [(stepKumi_other t _ e).2.2.1, stepKata_k_reg,
    (stepTku_other _ e).2.1, (stepTk_other _ e).2.1]

theorem countEnt_ku_reg_std (c : Counts) (e : EntryRecord) :
    (countEnt "standard" c e).ku_reg =
      c.ku_reg + (if e.kumi_chk && (e.kumi_val == "正") then 1 else 0) := by
  unfold countEnt
  rw [stepKumi_ku_reg_std, (stepKata_other _ e).2.2.1,
    (stepTku_other _ e).2.2.2.1, (stepTk_other _ e).2.2.2.1]

theorem countEnt_tk (t : String) (c : Counts) (e : EntryRecord) :
    (countEnt t c e).tk =
      c.tk + (if e.team_kata_chk && (e.team_kata_role == "正") then 1 else 0) := by
  unfold countEnt
  rw [(stepKumi_other t _ e).1, (stepKata_other _ e).1, (stepTku_other _ e).1,
    stepTk_tk]

theorem countEnt_tku (t : String) (c : Counts) (e : EntryRecord) :
    (countEnt t c e).tku =
      c.tku + (if e.team_kumi_chk && (e.team_kumi_role == "正") then 1 else 0) := by
  unfold countEnt
  rw [(stepKumi_other t _ e).2.1, (stepKata_other _ e).2.1, stepTku_tku,
    (stepTk_other _ e).1]

theorem countEnt_k_sub (t : String) (c : Counts) (e : EntryRecord) :
    (countEnt t c e).k_sub =
      c.k_sub + (if e.kata_chk && (e.kata_val == "補") then 1 else 0) := by
  unfold countEnt
  rw [(stepKumi_other t _ e).2.2.2, stepKata_k_sub,
    (stepTku_other _ e).2.2.1, (stepTk_other _ e).2.2.1]

theorem countEnt_ku_sub (t : String) (c : Counts) (e : EntryRecord) :
    (countEnt t c e).ku_sub =
      c.ku_sub + (if e.kumi_chk && (e.kumi_val == "補") then 1 else 0) := by
  unfold countEnt
  rw [stepKumi_ku_sub, (stepKata_other _ e).2.2.2,
    (stepTku_other _ e).2.2.2.2, (stepTk_other _ e).2.2.2.2]

theorem countEnt_default (t : String) (c : Counts) : countEnt t c defaultEnt = c := by
  simp [countEnt, stepTk, stepTku, stepKata, stepKumi, defaultEnt]

theorem foldl_countEnt_k_reg (t school_id : String) (entries : EntryStore) :
    ∀ (L : List Athlete) (c0 : Counts),
      (L.foldl (fun c r => countEnt t c (entFor entries school_id r.name)) c0).k_reg =
        c0.k_reg + L.countP (fun r => (entFor entries school_id r.name).kata_chk &&
          ((entFor entries school_id r.name).kata_val == "正"))
  | [], c0 => by simp
  | a :: L, c0 => by
    simp only [List.foldl_cons, List.countP_cons]
    rw [foldl_countEnt_k_reg t school_id entries L, countEnt_k_reg]
    omega

theorem foldl_countEnt_ku_reg_std (school_id : String) (entries : EntryStore) :
    ∀ (L : List Athlete) (c0 : Counts),
      (L.foldl (fun c r =>
          countEnt "standard" c (entFor entries school_id r.name)) c0).ku_reg =
        c0.ku_reg + L.countP (fun r => (entFor entries school_id r.name).kumi_chk &&
          ((entFor entries school_id r.name).kumi_val == "正"))
  | [], c0 => by simp
  | a :: L, c0 => by
    simp only [List.foldl_cons, List.countP_cons]
    rw [foldl_countEnt_ku_reg_std school_id entries L, countEnt_ku_reg_std]
    omega

/-- Record with both individual categories checked at value seed. -/
def seedEnt : EntryRecord := ⟨false, "", false, "", true, "シード", "1", true, "シード", "2"⟩

def entriesSeed : EntryStore := fun k => if k = "s_a" then some seedEnt else none

/-- Counterexample to C1: an athlete whose individual kata and kumite
entries are checked with value seed (シード) under the standard type
contributes nothing to either regular count, so seed does not function
like regular for counting purposes. -/
theorem c1_seed_not_counted_cx :
    (entriesSeed "s_a" = some seedEnt ∧ seedEnt.kata_chk = true ∧
      seedEnt.kata_val = "シード" ∧ seedEnt.kumi_chk = true ∧
      seedEnt.kumi_val = "シード") ∧
    (sexCounts "男子" "s" rosterM4 entriesSeed "standard").k_reg = 0 ∧
    (sexCounts "男子" "s" rosterM4 entriesSeed "standard").ku_reg = 0 := by decide

/-- C1 amended: for a standard-type tournament the individual regular
counts computed by `validate_counts` count exactly the checked entries
whose value is 正 (regular); checked seed (シード) entries are excluded
from the regular counts (the limit messages even say "シード除く"). -/
theorem c1_standard_regcount_only_regular (sex school_id : String)
    (roster : List Athlete) (entries : EntryStore) :
    (sexCounts sex school_id roster entries "standard").k_reg =
      (roster.filter (fun r => r.sex == sex)).countP
        (fun r => (entFor entries school_id r.name).kata_chk &&
          ((entFor entries school_id r.name).kata_val == "正")) ∧
    (sexCounts sex school_id roster entries "standard").ku_reg =
      (roster.filter (fun r => r.sex == sex)).countP
        (fun r => (entFor entries school_id r.name).kumi_chk &&
          ((entFor entries school_id r.name).kumi_val == "正")) := by
  constructor
  · unfold sexCounts
    rw [foldl_countEnt_k_reg]
    simp [zeroCounts]
  · unfold sexCounts
    rw [foldl_countEnt_ku_reg_std]
    simp [zeroCounts]

theorem sexCounts_append_absent (sex school_id t_type : String)
    (roster : List Athlete) (a : Athlete) (entries : EntryStore)
    (h : entries (school_id ++ "_" ++ a.name) = none) :
    sexCounts sex school_id (roster ++ [a]) entries t_type =
      sexCounts sex school_id roster entries t_type := by
  unfold sexCounts
  rw [List.filter_append, List.foldl_append]
  by_cases hs : a.sex == sex
  · simp [List.filter_cons, hs, entFor, h, countEnt_default]
  · simp [List.filter_cons, hs]

theorem sexCounts_empty (sex school_id : String) (roster : List Athlete)
    (t_type : String) :
    sexCounts sex school_id roster (fun _ => none) t_type = zeroCounts := by
  unfold sexCounts
  induction roster.filter (fun r => r.sex == sex) with
  | nil => rfl
  | cons a L ih => simp [entFor, countEnt_default, ih]

theorem sexErrs_zero (sex : String) (l : Limits) (t : String) (meta : SchoolMeta) :
    sexErrs sex l t meta zeroCounts = [] := by
  simp [sexErrs, tkErrs, tkuErrs, indErrs, zeroCounts]

/-- C6 amended: an athlete absent from the entries map contributes to no
count; unrecognized team roles and kata values never count, and for the
standard type unrecognized kumite values never count; `validate_counts`
on an empty entries map returns no violations. (For non-standard types a
checked kumite entry with an arbitrary unrecognized value does count
toward the regular kumite count — see the counterexample.) -/
theorem c6_absent_unrecognized_defaults :
    (∀ (sex school_id t_type : String) (roster : List Athlete) (a : Athlete)
        (entries : EntryStore), entries (school_id ++ "_" ++ a.name) = none →
      sexCounts sex school_id (roster ++ [a]) entries t_type =
        sexCounts sex school_id roster entries t_type) ∧
    (∀ (roster : List Athlete) (l : Limits) (t_type : String) (meta : SchoolMeta)
        (school_id : String),
      validate_counts roster (fun _ => none) l t_type meta school_id = []) ∧
    (∀ (t_type : String) (c : Counts) (e : EntryRecord),
      (e.team_kata_role ≠ "正" → (countEnt t_type c e).tk = c.tk) ∧
      (e.team_kumi_role ≠ "正" → (countEnt t_type c e).tku = c.tku) ∧
      (e.kata_val ≠ "正" ∧ e.kata_val ≠ "補" →
        (countEnt t_type c e).k_reg = c.k_reg ∧
        (countEnt t_type c e).k_sub = c.k_sub) ∧
      (e.kumi_val ≠ "正" ∧ e.kumi_val ≠ "補" →
        (countEnt "standard" c e).ku_reg = c.ku_reg ∧
        (countEnt "standard" c e).ku_sub = c.ku_sub)) := by
  refine ⟨sexCounts_append_absent, ?_, ?_⟩
  · intro roster l t_type meta school_id
    unfold validate_counts
    rw [sexCounts_empty, sexCounts_empty, sexErrs_zero, sexErrs_zero]
    rfl
  · intro t c e
    refine ⟨?_, ?_, ?_, ?_⟩
    · intro h
      simp [countEnt_tk, h]
    · intro h
      simp [countEnt_tku, h]
    · intro h
      exact ⟨by simp [countEnt_k_reg, h.1], by simp [countEnt_k_sub, h.2]⟩
    · intro h
      exact ⟨by simp [countEnt_ku_reg_std, h.1], by simp [countEnt_ku_sub, h.2]⟩

/-- Record whose kumite value is an arbitrary unrecognized string. -/
def garbageEnt : EntryRecord := ⟨false, "", false, "", false, "", "", true, "未知の値", ""⟩

def entriesGarbage : EntryStore := fun k => if k = "s_a" then some garbageEnt else none

/-- Limits with individual kumite regular cap 0, to surface the count. -/
def limitsKu0 : Limits := ⟨3, 3, 3, 5, 2, 3, 4, 2, 0, 2⟩

/-- Counterexample to C6: under a non-standard type (shinjin) a checked
kumite entry whose stored value is outside every recognized enumeration
is counted toward the regular kumite count and can itself trigger a
violation, rather than falling back to "not participating". -/
theorem c6_unrecognized_kumite_counted_cx :
    (garbageEnt.kumi_chk = true ∧
      garbageEnt.kumi_val ∉ (["正", "補", "シード", "なし", "出場しない", ""] : List String)) ∧
    (sexCounts "男子" "s" rosterM4 entriesGarbage "shinjin").ku_reg = 1 ∧
    validate_counts rosterM4 entriesGarbage limitsKu0 "shinjin" metaNoneNone "s" =
      [ikuRegMsg "男子" 0] := by decide

/-- Witness for the amended C6: a concrete athlete with no entry record
leaves the male counters unchanged. -/
theorem c6_absent_unrecognized_defaults_witness :
    sexCounts "男子" "s" (rosterM4 ++ [⟨"z", "男子"⟩]) (fun _ => none) "standard" =
      sexCounts "男子" "s" rosterM4 (fun _ => none) "standard" :=
  c6_absent_unrecognized_defaults.1 "男子" "s" "standard" rosterM4 ⟨"z", "男子"⟩
    (fun _ => none) rfl

/-! ### Entry-form submit processing (app.py lines 719-823) -/

/-- Digit translation of `to_half_width`
(the translate table mapping ０１２３４５６７８９ to 0123456789). -/
def trChar (ch : Char) : Char :=
  if ch = '０' then '0' else if ch = '１' then '1' else if ch = '２' then '2'
  else if ch = '３' then '3' else if ch = '４' then '4' else if ch = '５' then '5'
  else if ch = '６' then '6' else if ch = '７' then '7' else if ch = '８' then '8'
  else if ch = '９' then '9' else ch

/-- Whitespace removed by Python `str.strip` (the characters relevant to
this application: ASCII whitespace and the ideographic space). -/
def isPySpace (ch : Char) : Bool :=
  ch == ' ' || ch == '\t' || ch == '\n' || ch == '\r' || ch == '\x0b' ||
    ch == '\x0c' || ch == '　'

def pyStrip (s : String) : String :=
  String.mk (((s.data.dropWhile isPySpace).reverse.dropWhile isPySpace).reverse)

/-- `to_half_width` (app.py lines 32-34). -/
def to_half_width (text : String) : String :=
  if text = "" then "" else pyStrip (String.mk (text.data.map trChar))

/-- One row of the submitted entry form (`form_buffer[uid]`,
app.py line 763). -/
structure RawInput where
  val_tk : String
  val_tku : String
  val_k : String
  rank_k : String
  ku_val : String
  rank_ku : String
  name : String
  sex : String
deriving DecidableEq

/-- The uid of a form row: s_id, underscore, athlete name
(app.py line 728). -/
def uidOf (s_id : String) (raw : RawInput) : String := s_id ++ "_" ++ raw.name

/-- The record committed for one athlete (`temp_processed[uid]`,
app.py lines 770, 782, 797-802). -/
def recordOf (raw : RawInput) : EntryRecord :=
  { team_kata_chk := raw.val_tk != "なし"
    team_kata_role := if raw.val_tk != "なし" then raw.val_tk else ""
    team_kumi_chk := raw.val_tku != "なし"
    team_kumi_role := if raw.val_tku != "なし" then raw.val_tku else ""
    kata_chk := raw.val_k != "なし"
    kata_val := if raw.val_k != "なし" then raw.val_k else ""
    kata_rank := to_half_width raw.rank_k
    kumi_chk := (raw.ku_val != "なし") && (raw.ku_val != "出場しない")
    kumi_val := if (raw.ku_val != "なし") && (raw.ku_val != "出場しない") then
      raw.ku_val else ""
    kumi_rank := to_half_width raw.rank_ku }

/-- `is_reg` for individual kumite (app.py line 784). -/
def isRegKumi (t_type : String) (raw : RawInput) : Bool :=
  (t_type == "weight" && raw.ku_val != "補欠") ||
    (t_type == "standard" && raw.ku_val == "正")

/-- `is_seed` for individual kumite (app.py line 785). -/
def isSeedKumi (t_type : String) (raw : RawInput) : Bool :=
  t_type == "standard" && raw.ku_val == "シード"

/-- Missing-rank error for individual kata (app.py lines 771-773). -/
def kataFieldErrs (uid : String) (raw : RawInput) : List String :=
  if (raw.val_k != "なし") && (raw.val_k == "正" || raw.val_k == "シード") &&
      (raw.rank_k == "") then
    ["❌ " ++ uid ++ " 個人形: " ++ raw.val_k ++ "選手の実績順位が入力されていません。"]
  else []

/-- Missing-rank error for individual kumite (app.py lines 782-787). -/
def kumiFieldErrs (t_type uid : String) (raw : RawInput) : List String :=
  if (raw.ku_val != "なし") && (raw.ku_val != "出場しない") &&
      (isRegKumi t_type raw || isSeedKumi t_type raw) && (raw.rank_ku == "") then
    ["❌ " ++ uid ++ " 個人組手: 実績順位が入力されていません。"]
  else []

/-- A duplicate-checker key. The source builds the string
`f"{sex}_{cat}_{role}"` and later splits it on "_"; since the sexes and
roles used contain no underscore this round-trips exactly, so the key is
modelled as the triple of its components. -/
abbrev DupKey := String × String × String

/-- Append a name under a rank inside the bucket of one key, preserving
first-insertion order (Python nested dict insertion). -/
def addRank : List (String × List String) → String → String →
    List (String × List String)
  | [], r, n => [(r, [n])]
  | (r0, ns) :: rest, r, n =>
    if r0 = r then (r0, ns ++ [n]) :: rest else (r0, ns) :: addRank rest r n

/-- Append a name under a (key, rank) pair of the duplicate checker. -/
def addTriple : List (DupKey × List (String × List String)) → DupKey → String →
    String → List (DupKey × List (String × List String))
  | [], k, r, n => [(k, [(r, [n])])]
  | (k0, ranks) :: rest, k, r, n =>
    if k0 = k then (k0, addRank ranks r n) :: rest
    else (k0, ranks) :: addTriple rest k r n

/-- Kata-side insertion into the duplicate checker (app.py lines 775-780). -/
def dcKata (dc : List (DupKey × List (String × List String))) (raw : RawInput) :
    List (DupKey × List (String × List String)) :=
  if (raw.val_k != "なし") && (raw.val_k == "正" || raw.val_k == "シード") &&
      (raw.rank_k != "") then
    addTriple dc (raw.sex, "kata", raw.val_k) (to_half_width raw.rank_k) raw.name
  else dc

/-- Kumite-side insertion into the duplicate checker
(app.py lines 789-795). -/
def dcKumi (t_type : String) (dc : List (DupKey × List (String × List String)))
    (raw : RawInput) : List (DupKey × List (String × List String)) :=
  if (raw.ku_val != "なし") && (raw.ku_val != "出場しない") && (t_type == "standard") &&
      (isRegKumi t_type raw || isSeedKumi t_type raw) && (raw.rank_ku != "") then
    addTriple dc (raw.sex, "kumite", if isSeedKumi t_type raw then "シード" else "正")
      (to_half_width raw.rank_ku) raw.name
  else dc

/-- Duplicate-rank error message (app.py lines 806-810). -/
def dupMsg (k : DupKey) (rank names : String) : String :=
  "❌ " ++ k.1 ++ " 個人" ++ (if k.2.1 = "kata" then "形" else "組手") ++ " (" ++
    k.2.2 ++ "選手) で順位『" ++ rank ++ "』が重複しています: " ++ names

/-- Emission of duplicate-rank errors (app.py lines 804-811). -/
def dupErrs (dc : List (DupKey × List (String × List String))) : List String :=
  dc.foldl (fun acc kr =>
    acc ++ kr.2.foldl (fun acc2 rn =>
      if 1 < rn.2.length then
        acc2 ++ [dupMsg kr.1 rn.1 (String.intercalate ", " rn.2)]
      else acc2) []) []

/-- State accumulated over the form rows during submit processing. -/
structure FormAcc where
  recs : List (String × EntryRecord)
  errs : List String
  dc : List (DupKey × List (String × List String))

/-- Processing of one form row (app.py lines 769-802): field errors,
duplicate-checker insertions and the committed record. -/
def stepAthlete (t_type s_id : String) (acc : FormAcc) (raw : RawInput) : FormAcc :=
  { recs := acc.recs ++ [(uidOf s_id raw, recordOf raw)]
    errs := acc.errs ++ kataFieldErrs (uidOf s_id raw) raw ++
      kumiFieldErrs t_type (uidOf s_id raw) raw
    dc := dcKumi t_type (dcKata acc.dc raw) raw }

/-- The whole submit processing loop (app.py lines 766-811): per-athlete
records and field errors, then the duplicate-rank errors. -/
def processForm (t_type s_id : String) (form : List RawInput) :
    List (String × EntryRecord) × List String :=
  ((form.foldl (stepAthlete t_type s_id) ⟨[], [], []⟩).recs,
   (form.foldl (stepAthlete t_type s_id) ⟨[], [], []⟩).errs ++
     dupErrs (form.foldl (stepAthlete t_type s_id) ⟨[], [], []⟩).dc)

/-- Last-wins association lookup: the value a Python `dict.update` with
these pairs would leave under `k`. -/
def assocLast (recs : List (String × EntryRecord)) (k : String) : Option EntryRecord :=
  recs.foldl (fun acc p => if p.1 = k then some p.2 else acc) none

/-- `current_entries.update(temp_processed)` (app.py line 816). -/
def updateStore (st : EntryStore) (recs : List (String × EntryRecord)) : EntryStore :=
  fun k => match assocLast recs k with
  | some v => some v
  | none => st k

/-- Result of reconciling submitted form inputs with a previous entry
map: the merged records and the collected field errors. -/
structure ReconcileResult where
  records : EntryStore
  errors : List String

def reconcile (t_type s_id : String) (form : List RawInput) (prev : EntryStore) :
    ReconcileResult :=
  ⟨updateStore prev (processForm t_type s_id form).1,
   (processForm t_type s_id form).2⟩

/-- The guarded save (app.py lines 813-823): if any field or duplicate
error exists nothing is written; otherwise the merged map is validated
and saved only when `validate_counts` returns no violations. The first
component is whether `save_entries` ran; the second is the persisted
store afterwards. -/
def submitStep (t_type s_id : String) (form : List RawInput) (roster : List Athlete)
    (l : Limits) (meta : SchoolMeta) (store : EntryStore) : Bool × EntryStore :=
  if (processForm t_type s_id form).2 = [] then
    if validate_counts roster (updateStore store (processForm t_type s_id form).1)
        l t_type meta s_id = [] then
      (true, updateStore store (processForm t_type s_id form).1)
    else (false, store)
  else (false, store)

/-! ### Claims C7, C10, C2, C3 -/

theorem processForm_recs (t_type s_id : String) (form : List RawInput) :
    (processForm t_type s_id form).1 =
      form.map (fun raw => (uidOf s_id raw, recordOf raw)) := by
  suffices h : ∀ acc : FormAcc,
      (form.foldl (stepAthlete t_type s_id) acc).recs =
        acc.recs ++ form.map (fun raw => (uidOf s_id raw, recordOf raw)) by
    simpa [processForm] using h ⟨[], [], []⟩
  induction form with
  | nil => intro acc; simp
  | cons a L ih =>
    intro acc
    simp [List.foldl_cons, stepAthlete, ih]

theorem assocLast_eq_none (recs : List (String × EntryRecord)) (k : String)
    (h : ∀ p ∈ recs, p.1 ≠ k) : assocLast recs k = none := by
  unfold assocLast
  induction recs with
  | nil => rfl
  | cons p L ih =>
    have hp : p.1 ≠ k := h p (List.mem_cons_self p L)
    simp only [List.foldl_cons, if_neg hp]
    exact ih (fun q hq => h q (List.mem_cons_of_mem p hq))

/-- C7: the committed record for each athlete is a pure function of the
submitted form row, so reconciling the same form inputs against the
result of a first reconciliation reproduces that result exactly
(resubmission stability). -/
theorem c7_reconcile_idempotent (t_type s_id : String) (form : List RawInput)
    (prev : EntryStore) :
    reconcile t_type s_id form (reconcile t_type s_id form prev).records =
      reconcile t_type s_id form prev := by
  unfold reconcile
  congr 1
  funext k
  unfold updateStore
  cases h : assocLast (processForm t_type s_id form).1 k <;> simp [updateStore, h]

/-- C10: a submit touches only the keys `"{s_id}_{name}"` of the athletes
on the submitted form; every other key of the persisted entry map — other
records of other schools and the `_meta_` keys — keeps its prior value. -/
theorem c10_only_own_keys_modified (t_type s_id : String) (form : List RawInput)
    (roster : List Athlete) (l : Limits) (meta : SchoolMeta) (store : EntryStore)
    (k : String) (hk : ∀ raw ∈ form, k ≠ uidOf s_id raw) :
    (submitStep t_type s_id form roster l meta store).2 k = store k := by
  unfold submitStep
  split
  · split
    · show updateStore store (processForm t_type s_id form).1 k = store k
      unfold updateStore
      rw [processForm_recs, assocLast_eq_none]
      intro p hp
      rcases List.mem_map.mp hp with ⟨raw, hraw, rfl⟩
      exact fun he => hk raw hraw he.symm
    · rfl
  · rfl

def someOtherStore : EntryStore := fun k =>
  if k = "_meta_sch" then some defaultEnt else none

/-- Form row: alternate kata entry with a typed rank "5". -/
def c2Raw : RawInput := ⟨"なし", "なし", "補", "5", "なし", "", "太郎", "男子"⟩

def c2Form : List RawInput := [c2Raw]

def rosterTaro : List Athlete := [⟨"太郎", "男子"⟩]

/-- Witness for C10: a submit leaves the `_meta_` key of the store
untouched. -/
theorem c10_only_own_keys_modified_witness :
    (submitStep "standard" "sch" c2Form rosterTaro DEFAULT_LIMITS metaNoneNone
        someOtherStore).2 "_meta_sch" = someOtherStore "_meta_sch" :=
  c10_only_own_keys_modified "standard" "sch" c2Form rosterTaro DEFAULT_LIMITS
    metaNoneNone someOtherStore "_meta_sch" (by decide)

/-- Counterexample to C2: a record committed with kata value alternate
(補) stores the typed rank "5" verbatim instead of forcing it empty, so a
non-empty stored rank does not imply a regular or seed value. -/
theorem c2_alternate_rank_persisted_cx :
    (submitStep "standard" "sch" c2Form rosterTaro DEFAULT_LIMITS metaNoneNone
        (fun _ => none)).1 = true ∧
    (submitStep "standard" "sch" c2Form rosterTaro DEFAULT_LIMITS metaNoneNone
        (fun _ => none)).2 "sch_太郎" = some (recordOf c2Raw) ∧
    (recordOf c2Raw).kata_val = "補" ∧ (recordOf c2Raw).kata_rank = "5" := by decide

/-- C2 amended: every record committed by the submit processing stores,
for both individual categories, exactly the full-width-normalised text
the user typed in the rank field, whatever the resolved value is; ranks
are never forced empty for none or alternate values. -/
theorem c2_rank_stored_verbatim (t_type s_id : String) (form : List RawInput)
    (p : String) (r : EntryRecord)
    (h : (p, r) ∈ (processForm t_type s_id form).1) :
    ∃ raw ∈ form, p = uidOf s_id raw ∧ r = recordOf raw ∧
      r.kata_rank = to_half_width raw.rank_k ∧
      r.kumi_rank = to_half_width raw.rank_ku := by
  rw [processForm_recs] at h
  rcases List.mem_map.mp h with ⟨raw, hraw, heq⟩
  cases heq
  exact ⟨raw, hraw, rfl, rfl, rfl, rfl⟩

/-- Witness for the amended C2 at a concrete submitted form. -/
theorem c2_rank_stored_verbatim_witness :
    ∃ raw ∈ c2Form, ("sch_太郎" : String) = uidOf "sch" raw ∧
      recordOf c2Raw = recordOf raw ∧
      (recordOf c2Raw).kata_rank = to_half_width raw.rank_k ∧
      (recordOf c2Raw).kumi_rank = to_half_width raw.rank_ku :=
  c2_rank_stored_verbatim "standard" "sch" c2Form "sch_太郎" (recordOf c2Raw)
    (by decide)

/-- C3: the batch save is all-or-nothing: `save_entries` runs exactly
when there is no field or duplicate error and `validate_counts` on the
merged map returns no violations; in every other case the persisted
entry store is left unchanged. When the save runs it writes the prior
store updated with all the submitted records. -/
theorem c3_save_gated_on_no_errors (t_type s_id : String) (form : List RawInput)
    (roster : List Athlete) (l : Limits) (meta : SchoolMeta) (store : EntryStore) :
    ((submitStep t_type s_id form roster l meta store).1 = true ↔
      ((processForm t_type s_id form).2 = [] ∧
        validate_counts roster (updateStore store (processForm t_type s_id form).1)
          l t_type meta s_id = [])) ∧
    ((submitStep t_type s_id form roster l meta store).1 = false →
      (submitStep t_type s_id form roster l meta store).2 = store) ∧
    ((submitStep t_type s_id form roster l meta store).1 = true →
      (submitStep t_type s_id form roster l meta store).2 =
        updateStore store (processForm t_type s_id form).1) := by
  unfold submitStep
  by_cases h1 : (processForm t_type s_id form).2 = []
  · rw [if_pos h1]
    by_cases h2 : validate_counts roster
        (updateStore store (processForm t_type s_id form).1) l t_type meta s_id = []
    · rw [if_pos h2]
      simp [h1, h2]
    · rw [if_neg h2]
      simp [h1, h2]
  · rw [if_neg h1]
    simp [h1]

/-- Form row with a regular kata entry and an empty rank: a field error. -/
def c3Raw : RawInput := ⟨"なし", "なし", "正", "", "なし", "", "太郎", "男子"⟩

def c3Form : List RawInput := [c3Raw]

/-- Witness for C3: with a missing required rank the save does not run
and the persisted store is unchanged. -/
theorem c3_save_gated_on_no_errors_witness :
    (submitStep "standard" "sch" c3Form rosterTaro DEFAULT_LIMITS metaNoneNone
        (fun _ => none)).2 = (fun _ => none) :=
  (c3_save_gated_on_no_errors "standard" "sch" c3Form rosterTaro DEFAULT_LIMITS
      metaNoneNone (fun _ => none)).2.1 (by decide)

/-! ### Claim C9: Excel row layout -/

/-- The layout constants of `COORD_DEF` (app.py lines 78-91). -/
structure CoordLayout where
  start_row : Nat
  cap : Nat
  offset : Nat
deriving DecidableEq

def COORD_DEF : CoordLayout := ⟨16, 22, 46⟩

/-- Row computation of `generate_excel` (app.py line 385):
`r = coords["start_row"] + (i // coords["cap"] * coords["offset"]) +
(i % coords["cap"])`. -/
def excelRowOf (i : Nat) : Nat :=
  COORD_DEF.start_row + (i / COORD_DEF.cap) * COORD_DEF.offset +
    (i % COORD_DEF.cap)

/-- The row loop of `generate_excel` (app.py lines 384-385): the i-th
participating athlete, in the already sorted participant order, is
written at spreadsheet row `excelRowOf i`. -/
def generateExcelRows (entries : List Athlete) : List (Nat × Athlete) :=
  entries.enum.map (fun p => (excelRowOf p.1, p.2))

/-- C9: for every participating-athlete index i of the sorted participant
list, `generate_excel` writes the row of that athlete at spreadsheet row
`16 + (i div 22) * 46 + (i mod 22)` exactly (startRow 16, page capacity
22, page row offset 46). -/
theorem c9_excel_row_formula (entries : List Athlete) (i : Nat)
    (h : i < entries.length) :
    ((generateExcelRows entries).map Prod.fst)[i]? =
      some (16 + (i / 22) * 46 + (i % 22)) := by
  simp [generateExcelRows, List.getElem?_map, List.getElem?_enum,
    List.getElem?_eq_getElem h, excelRowOf, COORD_DEF]

/-- Witness for C9: the athlete at index 25 of a 30-athlete list lands on
row 16 + 46 + 3 = 65, on the second page of the template. -/
theorem c9_excel_row_formula_witness :
    ((generateExcelRows (List.replicate 30 ⟨"a", "男子"⟩)).map Prod.fst)[25]? =
      some 65 := by
  have h := c9_excel_row_formula (List.replicate 30 ⟨"a", "男子"⟩) 25 (by decide)
  simpa using h

/-! ### Claim C8: duplicate-rank detection -/

theorem submitStep_blocked_of_err (t_type s_id : String) (form : List RawInput)
    (roster : List Athlete) (l : Limits) (meta : SchoolMeta) (store : EntryStore)
    (m : String) (hm : m ∈ (processForm t_type s_id form).2) :
    (submitStep t_type s_id form roster l meta store).1 = false ∧
    (submitStep t_type s_id form roster l meta store).2 = store := by
  have hne := List.ne_nil_of_mem hm
  unfold submitStep
  rw [if_neg hne]
  exact ⟨rfl, rfl⟩

/-- C8: when two athletes of the same sex submit the same individual
category (kata or kumite, standard type) with the same value — both 正
or both シード — and the same normalised non-empty rank, one
duplicate-rank error naming both athletes is emitted and the save is
blocked, leaving the store unchanged. -/
theorem c8_duplicate_rank_error (s_id : String) (r1 r2 : RawInput) (v : String)
    (roster : List Athlete) (l : Limits) (meta : SchoolMeta) (store : EntryStore)
    (hsex : r2.sex = r1.sex) (hv : v = "正" ∨ v = "シード") :
    ((r1.val_k = v ∧ r2.val_k = v ∧ r1.rank_k ≠ "" ∧ r2.rank_k ≠ "" ∧
      to_half_width r2.rank_k = to_half_width r1.rank_k ∧
      r1.ku_val = "なし" ∧ r2.ku_val = "なし") →
      dupMsg (r1.sex, "kata", v) (to_half_width r1.rank_k)
          (String.intercalate ", " [r1.name, r2.name]) ∈
        (processForm "standard" s_id [r1, r2]).2 ∧
      (submitStep "standard" s_id [r1, r2] roster l meta store).1 = false ∧
      (submitStep "standard" s_id [r1, r2] roster l meta store).2 = store) ∧
    ((r1.ku_val = v ∧ r2.ku_val = v ∧ r1.rank_ku ≠ "" ∧ r2.rank_ku ≠ "" ∧
      to_half_width r2.rank_ku = to_half_width r1.rank_ku ∧
      r1.val_k = "なし" ∧ r2.val_k = "なし") →
      dupMsg (r1.sex, "kumite", v) (to_half_width r1.rank_ku)
          (String.intercalate ", " [r1.name, r2.name]) ∈
        (processForm "standard" s_id [r1, r2]).2 ∧
      (submitStep "standard" s_id [r1, r2] roster l meta store).1 = false ∧
      (submitStep "standard" s_id [r1, r2] roster l meta store).2 = store) := by
  constructor
  · rintro ⟨h1, h2, hr1, hr2, hrank, hku1, hku2⟩
    have hmem : dupMsg (r1.sex, "kata", v) (to_half_width r1.rank_k)
        (String.intercalate ", " [r1.name, r2.name]) ∈
        (processForm "standard" s_id [r1, r2]).2 := by
      simp only [processForm]
      refine List.mem_append.mpr (Or.inr ?_)
      rcases hv with rfl | rfl <;>
        simp [stepAthlete, dcKata, dcKumi, addTriple, addRank, dupErrs,
          isRegKumi, isSeedKumi, h1, h2, hr1, hr2, hrank, hku1, hku2, hsex]
    exact ⟨hmem, submitStep_blocked_of_err "standard" s_id [r1, r2] roster l meta
      store _ hmem⟩
  · rintro ⟨h1, h2, hr1, hr2, hrank, hku1, hku2⟩
    have hmem : dupMsg (r1.sex, "kumite", v) (to_half_width r1.rank_ku)
        (String.intercalate ", " [r1.name, r2.name]) ∈
        (processForm "standard" s_id [r1, r2]).2 := by
      simp only [processForm]
      refine List.mem_append.mpr (Or.inr ?_)
      rcases hv with rfl | rfl <;>
        simp [stepAthlete, dcKata, dcKumi, addTriple, addRank, dupErrs,
          isRegKumi, isSeedKumi, h1, h2, hr1, hr2, hrank, hku1, hku2, hsex]
    exact ⟨hmem, submitStep_blocked_of_err "standard" s_id [r1, r2] roster l meta
      store _ hmem⟩

def c8Raw1 : RawInput := ⟨"なし", "なし", "シード", "5", "なし", "", "山田", "男子"⟩

/-- Second athlete types the rank with a full-width digit ５, which
normalises to the same rank "5". -/
def c8Raw2 : RawInput := ⟨"なし", "なし", "シード", "５", "なし", "", "佐藤", "男子"⟩

/-- Witness for C8: two male athletes both seed with rank 5 (one typed
full-width) in individual kata produce one error naming both. -/
theorem c8_duplicate_rank_error_witness :
    dupMsg ("男子", "kata", "シード") (to_half_width "5")
        (String.intercalate ", " ["山田", "佐藤"]) ∈
      (processForm "standard" "sch" [c8Raw1, c8Raw2]).2 :=
  ((c8_duplicate_rank_error "sch" c8Raw1 c8Raw2 "シード" rosterTaro DEFAULT_LIMITS
      metaNoneNone (fun _ => none) rfl (Or.inr rfl)).1
    ⟨rfl, rfl, by decide, by decide, by decide, rfl, rfl⟩).1
